import Mathlib

/-!
# Body-fat calculator (`src/index.js`): embedding and verified properties

The React component `App` keeps nine pieces of state and has two handlers,
`calculateBodyFat` and `getGeminiRecommendations`.  The component state is a
record, each handler is a function from the state before to the state after.

Numbers.  A JavaScript Number is modelled by `JSNum K`: `NaN`, the two
infinities, or a finite value of the ordered field `K`.  Text fields are parsed
to exact rationals (`JSNum ℚ`); the formula is evaluated over `JSNum ℝ`, where
`Math.log10` is the base-10 logarithm.  The special values follow IEEE-754;
rounding of finite results to binary64 and the sign of zero are not modelled.
-/

namespace BodyFat

/-! ## JavaScript numbers -/

/-- A JavaScript Number: `NaN`, `-Infinity`, a finite value, or `Infinity`. -/
inductive JSNum (K : Type) where
  | nan : JSNum K
  | negInf : JSNum K
  | fin (x : K) : JSNum K
  | posInf : JSNum K
  deriving DecidableEq

namespace JSNum

variable {K : Type} [LinearOrderedField K]

/-- The global `isNaN` on a Number. -/
def isNaN : JSNum K → Bool
  | nan => true
  | _ => false

/-- Sign of a non-NaN number as an infinity: used by `*` and `/`. -/
def signedInf (positive : Bool) : JSNum K :=
  if positive then posInf else negInf

/-- Number `+`. -/
def add : JSNum K → JSNum K → JSNum K
  | nan, _ => nan
  | _, nan => nan
  | fin x, fin y => fin (x + y)
  | posInf, negInf => nan
  | negInf, posInf => nan
  | posInf, _ => posInf
  | negInf, _ => negInf
  | fin _, posInf => posInf
  | fin _, negInf => negInf

/-- Number `-`. -/
def sub : JSNum K → JSNum K → JSNum K
  | nan, _ => nan
  | _, nan => nan
  | fin x, fin y => fin (x - y)
  | posInf, posInf => nan
  | negInf, negInf => nan
  | posInf, _ => posInf
  | negInf, _ => negInf
  | fin _, posInf => negInf
  | fin _, negInf => posInf

/-- Number `*`. -/
def mul : JSNum K → JSNum K → JSNum K
  | nan, _ => nan
  | _, nan => nan
  | fin x, fin y => fin (x * y)
  | posInf, posInf => posInf
  | negInf, negInf => posInf
  | posInf, negInf => negInf
  | negInf, posInf => negInf
  | fin x, posInf => if x = 0 then nan else signedInf (decide (0 < x))
  | fin x, negInf => if x = 0 then nan else signedInf (decide (x < 0))
  | posInf, fin y => if y = 0 then nan else signedInf (decide (0 < y))
  | negInf, fin y => if y = 0 then nan else signedInf (decide (y < 0))

/-- Number `/`.  A zero divisor is taken to be `+0`. -/
def div : JSNum K → JSNum K → JSNum K
  | nan, _ => nan
  | _, nan => nan
  | fin x, fin y =>
      if y = 0 then (if x = 0 then nan else signedInf (decide (0 < x)))
      else fin (x / y)
  | fin _, posInf => fin 0
  | fin _, negInf => fin 0
  | posInf, fin y => signedInf (decide (0 ≤ y))
  | negInf, fin y => signedInf (decide (y < 0))
  | posInf, posInf => nan
  | posInf, negInf => nan
  | negInf, posInf => nan
  | negInf, negInf => nan

/-- Number `<`: false as soon as one side is `NaN`. -/
def lt : JSNum K → JSNum K → Bool
  | nan, _ => false
  | _, nan => false
  | fin x, fin y => decide (x < y)
  | negInf, negInf => false
  | negInf, _ => true
  | posInf, _ => false
  | fin _, posInf => true
  | fin _, negInf => false

/-- Number `<=`: false as soon as one side is `NaN`. -/
def le : JSNum K → JSNum K → Bool
  | nan, _ => false
  | _, nan => false
  | fin x, fin y => decide (x ≤ y)
  | negInf, _ => true
  | posInf, posInf => true
  | posInf, _ => false
  | fin _, posInf => true
  | fin _, negInf => false

/-- Number `>`. -/
def gt (a b : JSNum K) : Bool := lt b a

/-- Embedding of a parsed rational Number into the reals. -/
def toReal : JSNum ℚ → JSNum ℝ
  | nan => nan
  | negInf => negInf
  | fin q => fin (q : ℝ)
  | posInf => posInf

end JSNum

/-! ## Numeric strings (`Number(value)` and `parseFloat(value)`) -/

/-- The characters `StrWhiteSpaceChar` of the numeric-string grammar: white
space and line terminators. -/
def isStrWhiteSpaceChar (c : Char) : Bool :=
  let n := c.toNat
  n == 0x09 || n == 0x0A || n == 0x0B || n == 0x0C || n == 0x0D || n == 0x20 ||
  n == 0xA0 || n == 0x1680 || (0x2000 ≤ n && n ≤ 0x200A) || n == 0x2028 ||
  n == 0x2029 || n == 0x202F || n == 0x205F || n == 0x3000 || n == 0xFEFF

/-- Drop leading white space. -/
def trimStart (cs : List Char) : List Char :=
  cs.dropWhile isStrWhiteSpaceChar

/-- Drop leading and trailing white space. -/
def trim (cs : List Char) : List Char :=
  ((trimStart cs).reverse.dropWhile isStrWhiteSpaceChar).reverse

/-- The mathematical value of a `StrDecimalLiteral`: a signed `Infinity`, or a
signed decimal `mant * 10 ^ exp`. -/
inductive StrLit where
  | infinity (neg : Bool) : StrLit
  | dec (neg : Bool) (mant : ℕ) (exp : ℤ) : StrLit
  deriving DecidableEq

/-- The Number a literal denotes. -/
def StrLit.value : StrLit → JSNum ℚ
  | .infinity neg => if neg then .negInf else .posInf
  | .dec neg mant exp => .fin ((if neg then -1 else 1) * (mant : ℚ) * (10 : ℚ) ^ exp)

/-- Value of one decimal digit. -/
def digitValue (c : Char) : ℕ := c.toNat - 48

/-- Value of a run of decimal digits. -/
def digitsValue (ds : List Char) : ℕ :=
  ds.foldl (fun acc c => 10 * acc + digitValue c) 0

/-- Split off the leading run of decimal digits. -/
def spanDigits (cs : List Char) : List Char × List Char :=
  cs.span Char.isDigit

/-- An `ExponentPart` at the head of the input: `e` or `E`, an optional sign,
one digit or more. -/
def parseExponentPart : List Char → Option (ℤ × List Char)
  | [] => none
  | c :: rest =>
    if c = 'e' ∨ c = 'E' then
      let signed : Bool × List Char :=
        match rest with
        | '+' :: r => (false, r)
        | '-' :: r => (true, r)
        | r => (false, r)
      let ds := spanDigits signed.2
      if ds.1.isEmpty then none
      else some (if signed.1 then -(digitsValue ds.1 : ℤ) else (digitsValue ds.1 : ℤ), ds.2)
    else none

/-- Attach the optional exponent that follows mantissa `mant * 10 ^ exp`. -/
def withExponent (neg : Bool) (mant : ℕ) (exp : ℤ) (cs : List Char) :
    StrLit × List Char :=
  match parseExponentPart cs with
  | some (e, rest) => (.dec neg mant (exp + e), rest)
  | none => (.dec neg mant exp, cs)

/-- The longest `StrUnsignedDecimalLiteral` at the head of the input. -/
def parseUnsignedDecimal (neg : Bool) (cs : List Char) : Option (StrLit × List Char) :=
  match cs with
  | 'I' :: 'n' :: 'f' :: 'i' :: 'n' :: 'i' :: 't' :: 'y' :: rest =>
    some (.infinity neg, rest)
  | _ =>
    let ip := spanDigits cs
    match ip.2 with
    | '.' :: r =>
      let fp := spanDigits r
      if ip.1.isEmpty && fp.1.isEmpty then none
      else some (withExponent neg (digitsValue (ip.1 ++ fp.1)) (-(fp.1.length : ℤ)) fp.2)
    | r =>
      if ip.1.isEmpty then none
      else some (withExponent neg (digitsValue ip.1) 0 r)

/-- The longest `StrDecimalLiteral` at the head of the input, with what
follows it. -/
def parseStrDecimalLiteral : List Char → Option (StrLit × List Char)
  | '+' :: r => parseUnsignedDecimal false r
  | '-' :: r => parseUnsignedDecimal true r
  | cs => parseUnsignedDecimal false cs

/-- Value of a digit in base 2, 8 or 16, when it is one. -/
def digitInBase (base : ℕ) (c : Char) : Option ℕ :=
  let v : Option ℕ :=
    if c.isDigit then some (c.toNat - 48)
    else if 'a' ≤ c ∧ c ≤ 'f' then some (c.toNat - 87)
    else if 'A' ≤ c ∧ c ≤ 'F' then some (c.toNat - 55)
    else none
  v.bind (fun d => if d < base then some d else none)

/-- Value of a non-empty run of digits in the given base. -/
def digitsInBase (base : ℕ) (ds : List Char) : Option ℕ :=
  if ds.isEmpty then none
  else ds.foldl (fun acc c => acc.bind (fun a => (digitInBase base c).map (fun d => base * a + d)))
    (some 0)

/-- A `NonDecimalIntegerLiteral`: binary, octal or hexadecimal. -/
def parseNonDecimal : List Char → Option ℕ
  | '0' :: c :: ds =>
    if c = 'x' ∨ c = 'X' then digitsInBase 16 ds
    else if c = 'o' ∨ c = 'O' then digitsInBase 8 ds
    else if c = 'b' ∨ c = 'B' then digitsInBase 2 ds
    else none
  | _ => none

/-- The conversion `ToNumber` applied to a string, as done by `isNaN(value)`:
white space is trimmed, the empty string is `0`, anything that is not a whole
numeric literal is `NaN`. -/
def toNumber (value : String) : JSNum ℚ :=
  let cs := trim value.data
  if cs.isEmpty then .fin 0
  else
    match parseNonDecimal cs with
    | some n => .fin (n : ℚ)
    | none =>
      match parseStrDecimalLiteral cs with
      | some (lit, []) => lit.value
      | _ => .nan

/-- The global `parseFloat`: the longest decimal literal at the start of the
string, leading white space skipped; `NaN` when there is none. -/
def parseFloat (value : String) : JSNum ℚ :=
  match parseStrDecimalLiteral (trimStart value.data) with
  | some (lit, _) => lit.value
  | none => .nan

/-- Source `isValidNumber`:
`value !== '' && !isNaN(value) && parseFloat(value) > 0`. -/
def isValidNumber (value : String) : Bool :=
  value != "" && !(toNumber value).isNaN && (parseFloat value).gt (.fin 0)

/-! ## Arithmetic of the formula -/

namespace JSNum

instance {K : Type} [LinearOrderedField K] : Add (JSNum K) := ⟨add⟩
instance {K : Type} [LinearOrderedField K] : Sub (JSNum K) := ⟨sub⟩
instance {K : Type} [LinearOrderedField K] : Mul (JSNum K) := ⟨mul⟩
instance {K : Type} [LinearOrderedField K] : Div (JSNum K) := ⟨div⟩

/-- The function `Math.log10`: `NaN` below zero, `-Infinity` at zero, the
base-10 logarithm above. -/
noncomputable def log10 : JSNum ℝ → JSNum ℝ
  | nan => nan
  | negInf => nan
  | posInf => posInf
  | fin x => if x < 0 then nan else if x = 0 then negInf else fin (Real.logb 10 x)

/-- The method `Number.prototype.toFixed(digits)`, the resulting decimal string
being represented by the number it denotes.  A finite `x` below `10 ^ 21` in
magnitude becomes `n / 10 ^ digits` for the integer `n` nearest to
`|x| * 10 ^ digits` (the larger one on a tie), with the sign of `x`; every other
value is printed as it is. -/
noncomputable def toFixed (x : JSNum ℝ) (digits : ℕ) : JSNum ℝ :=
  match x with
  | fin v =>
    if (10 : ℝ) ^ 21 ≤ |v| then fin v
    else if v < 0 then fin (-((⌊-v * 10 ^ digits + 1 / 2⌋ : ℤ) : ℝ) / 10 ^ digits)
    else fin (((⌊v * 10 ^ digits + 1 / 2⌋ : ℤ) : ℝ) / 10 ^ digits)
  | other => other

end JSNum

/-! ## Component state -/

/-- The state of `App`, one field per `useState`.  `bodyFatPercentage` is
`null` (`none`) or the string made by `toFixed(2)`, represented by the number
that string denotes.  `recommendations` is a string, or `undefined` (`none`)
when the service answered with a part that has no text. -/
structure AppState where
  gender : String
  height : String
  neck : String
  waist : String
  hip : String
  bodyFatPercentage : Option (JSNum ℝ)
  error : String
  recommendations : Option String
  isGeneratingRecommendations : Bool

/-- The state `App` starts in. -/
def initialState : AppState :=
  { gender := "", height := "", neck := "", waist := "", hip := "",
    bodyFatPercentage := none, error := "", recommendations := some "",
    isGeneratingRecommendations := false }

/-! ## Messages -/

/-- Message shown when no gender is selected. -/
def msgMissingGender : String := "Por favor, selecciona tu género."

/-- Message shown when height, neck or waist is not a positive number. -/
def msgInvalidBasic : String :=
  "Por favor, ingresa valores numéricos positivos para altura, cuello y cintura."

/-- Message shown when the hip of a female subject is not a positive number. -/
def msgInvalidHip : String :=
  "Para mujeres, por favor, ingresa un valor numérico positivo para la cadera."

/-- Message shown when the male logarithm operand is not positive. -/
def msgNeckWaist : String :=
  "La medida de la cintura debe ser mayor que la del cuello para un cálculo preciso en hombres."

/-- Message shown when the female logarithm operand is not positive. -/
def msgWaistHipNeck : String :=
  "La suma de la cintura y la cadera debe ser mayor que la medida del cuello para un cálculo preciso en mujeres."

/-- Message shown when the computed value is `NaN` or negative. -/
def msgOutOfRange : String :=
  "No se pudo calcular el porcentaje de grasa corporal. Verifica tus medidas."

/-- Message shown when the service answers without a usable candidate. -/
def msgNoRecommendations : String :=
  "No se pudieron generar las recomendaciones. Inténtalo de nuevo."

/-- Message shown when the call to the service throws. -/
def msgConnection : String :=
  "Error al conectar con la API de Gemini. Por favor, revisa tu conexión."

/-! ## `calculateBodyFat` -/

/-- Source `calculateBodyFat`.  The three setters at the top clear `error`,
`bodyFatPercentage` and `recommendations`; each early `return` leaves the state
with one more `setError`. -/
noncomputable def calculateBodyFat (s : AppState) : AppState :=
  let s0 : AppState :=
    { s with error := "", bodyFatPercentage := none, recommendations := some "" }
  if s.gender = "" then
    { s0 with error := msgMissingGender }
  else if !isValidNumber s.height || !isValidNumber s.neck || !isValidNumber s.waist then
    { s0 with error := msgInvalidBasic }
  else if s.gender = "female" && !isValidNumber s.hip then
    { s0 with error := msgInvalidHip }
  else
    let h := (parseFloat s.height).toReal
    let n := (parseFloat s.neck).toReal
    let w := (parseFloat s.waist).toReal
    let p := (parseFloat s.hip).toReal
    let computed : Except String (JSNum ℝ) :=
      if s.gender = "male" then
        if (w - n).le (.fin 0) then .error msgNeckWaist
        else .ok (.fin 495 / (.fin 1.0324 - .fin 0.19077 * JSNum.log10 (w - n)
                    + .fin 0.15456 * JSNum.log10 h) - .fin 450)
      else
        if (w + p - n).le (.fin 0) then .error msgWaistHipNeck
        else .ok (.fin 495 / (.fin 1.29579 - .fin 0.35004 * JSNum.log10 (w + p - n)
                    + .fin 0.22100 * JSNum.log10 h) - .fin 450)
    match computed with
    | .error msg => { s0 with error := msg }
    | .ok bf =>
      if bf.isNaN || bf.lt (.fin 0) then
        { s0 with error := msgOutOfRange, bodyFatPercentage := none }
      else
        { s0 with bodyFatPercentage := some (bf.toFixed 2) }

/-! ## `getGeminiRecommendations` -/

/-- One element of `content.parts`. -/
structure Part where
  text : Option String

/-- The `content` of a candidate. -/
structure Content where
  parts : Option (List Part)

/-- One element of `candidates`. -/
structure Candidate where
  content : Option Content

/-- The body of the service response after `response.json()`, in the shape the
service documents; every property may be missing. -/
structure GeminiResponse where
  candidates : Option (List Candidate)

/-- What the awaited `fetch(...)` followed by `response.json()` does: it
resolves with a body, or one of the two throws. -/
inductive FetchOutcome where
  | resolved (result : GeminiResponse) : FetchOutcome
  | thrown : FetchOutcome

/-- The text read from a response by the `if` of the `try` block: `some text`
when `candidates`, `candidates[0].content` and `content.parts` are present and
both arrays are non-empty (`text` is `parts[0].text`, itself possibly
`undefined`), `none` when the `else` branch is taken. -/
def extractText (result : GeminiResponse) : Option (Option String) :=
  match result.candidates with
  | some (candidate :: _) =>
    match candidate.content with
    | some content =>
      match content.parts with
      | some (part :: _) => some part.text
      | _ => none
    | none => none
  | _ => none

/-- Source `getGeminiRecommendations`, up to the `await`: the three setters
before the request. -/
def getGeminiRecommendationsStart (s : AppState) : AppState :=
  { s with isGeneratingRecommendations := true, recommendations := some "", error := "" }

/-- Source `getGeminiRecommendations`, the whole handler, given what the
awaited request did. -/
def getGeminiRecommendations (s : AppState) (outcome : FetchOutcome) : AppState :=
  let s1 := getGeminiRecommendationsStart s
  let s2 : AppState :=
    match outcome with
    | .resolved result =>
      match extractText result with
      | some text => { s1 with recommendations := text }
      | none => { s1 with error := msgNoRecommendations }
    | .thrown => { s1 with error := msgConnection }
  { s2 with isGeneratingRecommendations := false }

/-! ## Reading aids used in the statements -/

/-- The state right after the three setters that open `calculateBodyFat`. -/
def cleared (s : AppState) : AppState :=
  { s with error := "", bodyFatPercentage := none, recommendations := some "" }

/-- The parsed height, `parseFloat(height)`, as a real Number. -/
def heightOf (s : AppState) : JSNum ℝ := (parseFloat s.height).toReal

/-- The parsed neck, `parseFloat(neck)`, as a real Number. -/
def neckOf (s : AppState) : JSNum ℝ := (parseFloat s.neck).toReal

/-- The parsed waist, `parseFloat(waist)`, as a real Number. -/
def waistOf (s : AppState) : JSNum ℝ := (parseFloat s.waist).toReal

/-- The parsed hip, `parseFloat(hip)`, as a real Number. -/
def hipOf (s : AppState) : JSNum ℝ := (parseFloat s.hip).toReal

/-- The three fields every subject needs pass `isValidNumber`. -/
def basicValid (s : AppState) : Bool :=
  isValidNumber s.height && isValidNumber s.neck && isValidNumber s.waist

/-- Spec §4.2, male: `495 / (1.0324 - 0.19077 * log10(waist - neck) +
0.15456 * log10(height)) - 450`. -/
noncomputable def navyMale (waist neck height : JSNum ℝ) : JSNum ℝ :=
  .fin 495 / (.fin 1.0324 - .fin 0.19077 * JSNum.log10 (waist - neck)
    + .fin 0.15456 * JSNum.log10 height) - .fin 450

/-- Spec §4.2, female: `495 / (1.29579 - 0.35004 * log10(waist + hip - neck) +
0.22100 * log10(height)) - 450`. -/
noncomputable def navyFemale (waist hip neck height : JSNum ℝ) : JSNum ℝ :=
  .fin 495 / (.fin 1.29579 - .fin 0.35004 * JSNum.log10 (waist + hip - neck)
    + .fin 0.22100 * JSNum.log10 height) - .fin 450

/-- The tail of `calculateBodyFat`, from a computed `bf` on: a `NaN` or negative
value sets the out-of-range message, any other value is stored after
`toFixed(2)`. -/
noncomputable def rangeChecked (s : AppState) (percent : JSNum ℝ) : AppState :=
  if percent.isNaN = true ∨ percent.lt (.fin 0) = true then
    { cleared s with error := msgOutOfRange }
  else
    { cleared s with bodyFatPercentage := some (percent.toFixed 2) }

/-- A field that `isValidNumber` turns down: it is empty, it is not a numeric
string (`isNaN`), or its `parseFloat` is not above zero. -/
def fieldRejected (value : String) : Prop :=
  value = "" ∨ (toNumber value).isNaN = true ∨ (parseFloat value).gt (.fin 0) = false

/-- The state passes the three validation steps with gender `male` or
`female`. -/
def passesValidation (s : AppState) : Prop :=
  basicValid s = true ∧
    (s.gender = "male" ∨ (s.gender = "female" ∧ isValidNumber s.hip = true))

/-- The state passes validation and the guard of its gender: the operand of the
first logarithm is not `<= 0`. -/
def passesDomainGuard (s : AppState) : Prop :=
  (s.gender = "male" ∧ basicValid s = true ∧
      (waistOf s - neckOf s).le (.fin 0) = false) ∨
  (s.gender = "female" ∧ basicValid s = true ∧ isValidNumber s.hip = true ∧
      (waistOf s + hipOf s - neckOf s).le (.fin 0) = false)

/-- The male formula on real arguments. -/
noncomputable def navyMaleReal (waist neck height : ℝ) : ℝ :=
  495 / (1.0324 - 0.19077 * Real.logb 10 (waist - neck) + 0.15456 * Real.logb 10 height) - 450

/-- The female formula on real arguments. -/
noncomputable def navyFemaleReal (waist hip neck height : ℝ) : ℝ :=
  495 / (1.29579 - 0.35004 * Real.logb 10 (waist + hip - neck)
    + 0.22100 * Real.logb 10 height) - 450

/-! ## Concrete states -/

/-- A male subject with the given measurements, nothing computed yet. -/
def maleState (height neck waist : String) : AppState :=
  { gender := "male", height := height, neck := neck, waist := waist, hip := "",
    bodyFatPercentage := none, error := "", recommendations := some "",
    isGeneratingRecommendations := false }

/-- A female subject with the given measurements, nothing computed yet. -/
def femaleState (height neck waist hip : String) : AppState :=
  { gender := "female", height := height, neck := neck, waist := waist, hip := hip,
    bodyFatPercentage := none, error := "", recommendations := some "",
    isGeneratingRecommendations := false }

/-- A state whose gender is neither empty, `male` nor `female`. -/
def otherGenderState : AppState :=
  { gender := "otro", height := "100", neck := "50", waist := "70", hip := "80",
    bodyFatPercentage := none, error := "", recommendations := some "",
    isGeneratingRecommendations := false }

/-- The initial state with the three basic fields filled in and no gender
selected. -/
def unsetGenderState : AppState :=
  { gender := "", height := "175", neck := "38", waist := "80", hip := "",
    bodyFatPercentage := none, error := "", recommendations := some "",
    isGeneratingRecommendations := false }

/-- Scenario 1 (male, height 175, neck 38, waist 80) with an arbitrary hip
field and arbitrary earlier results. -/
def scenario1 (hip : String) (prior : AppState) : AppState :=
  { gender := "male", height := "175", neck := "38", waist := "80", hip := hip,
    bodyFatPercentage := prior.bodyFatPercentage, error := prior.error,
    recommendations := prior.recommendations,
    isGeneratingRecommendations := prior.isGeneratingRecommendations }


/-! ## Facts about the messages -/

theorem msgMissingGender_ne_empty : msgMissingGender ≠ "" := by decide
theorem msgInvalidBasic_ne_empty : msgInvalidBasic ≠ "" := by decide
theorem msgInvalidHip_ne_empty : msgInvalidHip ≠ "" := by decide
theorem msgNeckWaist_ne_empty : msgNeckWaist ≠ "" := by decide
theorem msgWaistHipNeck_ne_empty : msgWaistHipNeck ≠ "" := by decide
theorem msgOutOfRange_ne_empty : msgOutOfRange ≠ "" := by decide

/-! ## `calculateBodyFat`, branch by branch -/

theorem calculateBodyFat_no_gender (s : AppState) (hg : s.gender = "") :
    calculateBodyFat s = { cleared s with error := msgMissingGender } := by
  simp [calculateBodyFat, cleared, hg]

theorem calculateBodyFat_invalid_basic (s : AppState) (hg : s.gender ≠ "")
    (hv : basicValid s = false) :
    calculateBodyFat s = { cleared s with error := msgInvalidBasic } := by
  have hv2 : (!isValidNumber s.height || !isValidNumber s.neck || !isValidNumber s.waist)
      = true := by
    simp only [basicValid] at hv
    revert hv
    cases isValidNumber s.height <;> cases isValidNumber s.neck <;>
      cases isValidNumber s.waist <;> simp
  simp only [calculateBodyFat, cleared, hg, hv2, if_true, if_false]

theorem calculateBodyFat_invalid_hip (s : AppState) (hv : basicValid s = true)
    (hg : s.gender = "female") (hh : isValidNumber s.hip = false) :
    calculateBodyFat s = { cleared s with error := msgInvalidHip } := by
  simp only [basicValid, Bool.and_eq_true] at hv
  simp [calculateBodyFat, cleared, hg, hh, hv]

theorem calculateBodyFat_male (s : AppState) (hv : basicValid s = true)
    (hg : s.gender = "male") :
    calculateBodyFat s =
      if (waistOf s - neckOf s).le (.fin 0) = true then
        { cleared s with error := msgNeckWaist }
      else rangeChecked s (navyMale (waistOf s) (neckOf s) (heightOf s)) := by
  simp only [basicValid, Bool.and_eq_true] at hv
  simp only [calculateBodyFat, cleared, hg, hv, waistOf, neckOf, heightOf, rangeChecked,
    navyMale]
  split_ifs <;> simp_all

theorem calculateBodyFat_other (s : AppState) (hv : basicValid s = true)
    (hg : s.gender ≠ "") (hm : s.gender ≠ "male")
    (hh : s.gender = "female" → isValidNumber s.hip = true) :
    calculateBodyFat s =
      if (waistOf s + hipOf s - neckOf s).le (.fin 0) = true then
        { cleared s with error := msgWaistHipNeck }
      else rangeChecked s (navyFemale (waistOf s) (hipOf s) (neckOf s) (heightOf s)) := by
  simp only [basicValid, Bool.and_eq_true] at hv
  simp only [calculateBodyFat, cleared, hg, hm, hv, waistOf, neckOf, heightOf, hipOf,
    rangeChecked, navyFemale]
  split_ifs <;> simp_all

theorem msgInvalidBasic_ne_others :
    msgInvalidBasic ≠ msgMissingGender ∧ msgInvalidBasic ≠ msgInvalidHip ∧
    msgInvalidBasic ≠ msgNeckWaist ∧ msgInvalidBasic ≠ msgWaistHipNeck ∧
    msgInvalidBasic ≠ msgOutOfRange := by decide

theorem msgInvalidHip_ne_others :
    msgInvalidHip ≠ msgMissingGender ∧ msgInvalidHip ≠ msgInvalidBasic ∧
    msgInvalidHip ≠ msgNeckWaist ∧ msgInvalidHip ≠ msgWaistHipNeck ∧
    msgInvalidHip ≠ msgOutOfRange := by decide

theorem msgNeckWaist_ne_others :
    msgNeckWaist ≠ msgWaistHipNeck ∧ msgNeckWaist ≠ msgOutOfRange := by decide

theorem msgWaistHipNeck_ne_others :
    msgWaistHipNeck ≠ msgNeckWaist ∧ msgWaistHipNeck ≠ msgOutOfRange := by decide

/-! ## The range check -/

theorem rangeChecked_error (s : AppState) (bf : JSNum ℝ) :
    (rangeChecked s bf).error = "" ∨ (rangeChecked s bf).error = msgOutOfRange := by
  unfold rangeChecked
  split_ifs <;> simp [cleared]

theorem rangeChecked_rejects (s : AppState) (bf : JSNum ℝ)
    (h : bf.isNaN = true ∨ bf.lt (.fin 0) = true) :
    rangeChecked s bf = { cleared s with error := msgOutOfRange } := by
  unfold rangeChecked
  rw [if_pos h]

theorem rangeChecked_stores (s : AppState) (bf : JSNum ℝ)
    (h1 : bf.isNaN = false) (h2 : bf.lt (.fin 0) = false) :
    rangeChecked s bf = { cleared s with bodyFatPercentage := some (bf.toFixed 2) } := by
  unfold rangeChecked
  rw [if_neg]
  simp [h1, h2]

theorem rangeChecked_xor (s : AppState) (bf : JSNum ℝ) :
    ((rangeChecked s bf).error ≠ "" ∧ (rangeChecked s bf).bodyFatPercentage = none) ∨
    ((rangeChecked s bf).error = "" ∧ (rangeChecked s bf).bodyFatPercentage ≠ none) := by
  unfold rangeChecked
  split_ifs
  · left; exact ⟨msgOutOfRange_ne_empty, rfl⟩
  · right; simp [cleared]

/-! ## Claims on the control flow -/

/-- C7.  Whatever the state before, the state after `calculateBodyFat` has
either a non-empty error and no body-fat value, or an empty error and a
body-fat value, and never both: every failing path leaves the value cleared. -/
theorem calculateBodyFat_error_xor_result (s : AppState) :
    (((calculateBodyFat s).error ≠ "" ∧ (calculateBodyFat s).bodyFatPercentage = none) ∨
     ((calculateBodyFat s).error = "" ∧ (calculateBodyFat s).bodyFatPercentage ≠ none)) ∧
    ¬ (((calculateBodyFat s).error ≠ "" ∧ (calculateBodyFat s).bodyFatPercentage = none) ∧
       ((calculateBodyFat s).error = "" ∧ (calculateBodyFat s).bodyFatPercentage ≠ none)) := by
  refine ⟨?_, fun h => h.1.1 h.2.1⟩
  by_cases hg : s.gender = ""
  · rw [calculateBodyFat_no_gender s hg]
    exact Or.inl ⟨msgMissingGender_ne_empty, rfl⟩
  · cases hv : basicValid s with
    | false =>
      rw [calculateBodyFat_invalid_basic s hg hv]
      exact Or.inl ⟨msgInvalidBasic_ne_empty, rfl⟩
    | true =>
      by_cases hm : s.gender = "male"
      · rw [calculateBodyFat_male s hv hm]
        split_ifs
        · exact Or.inl ⟨msgNeckWaist_ne_empty, rfl⟩
        · exact rangeChecked_xor s _
      · cases hh : isValidNumber s.hip with
        | false =>
          by_cases hf : s.gender = "female"
          · rw [calculateBodyFat_invalid_hip s hv hf hh]
            exact Or.inl ⟨msgInvalidHip_ne_empty, rfl⟩
          · rw [calculateBodyFat_other s hv hg hm (fun h => absurd h hf)]
            split_ifs
            · exact Or.inl ⟨msgWaistHipNeck_ne_empty, rfl⟩
            · exact rangeChecked_xor s _
        | true =>
          rw [calculateBodyFat_other s hv hg hm (fun _ => hh)]
          split_ifs
          · exact Or.inl ⟨msgWaistHipNeck_ne_empty, rfl⟩
          · exact rangeChecked_xor s _

/-- C8.  Whatever the state and whatever the awaited request does (a body with
text, a body without a usable candidate, a thrown error),
`getGeminiRecommendations` leaves `bodyFatPercentage`, `gender`, `height`,
`neck`, `waist` and `hip` as they were and ends with
`isGeneratingRecommendations = false`. -/
theorem getGeminiRecommendations_frame (s : AppState) (outcome : FetchOutcome) :
    (getGeminiRecommendations s outcome).bodyFatPercentage = s.bodyFatPercentage ∧
    (getGeminiRecommendations s outcome).gender = s.gender ∧
    (getGeminiRecommendations s outcome).height = s.height ∧
    (getGeminiRecommendations s outcome).neck = s.neck ∧
    (getGeminiRecommendations s outcome).waist = s.waist ∧
    (getGeminiRecommendations s outcome).hip = s.hip ∧
    (getGeminiRecommendations s outcome).isGeneratingRecommendations = false := by
  unfold getGeminiRecommendations getGeminiRecommendationsStart
  cases outcome with
  | thrown => simp
  | resolved result =>
    cases h : extractText result <;> simp [h]

/-! ## Arithmetic on finite values -/

namespace JSNum

@[simp]
theorem fin_add_fin {K : Type} [LinearOrderedField K] (x y : K) :
    (fin x + fin y : JSNum K) = fin (x + y) := rfl

@[simp]
theorem fin_sub_fin {K : Type} [LinearOrderedField K] (x y : K) :
    (fin x - fin y : JSNum K) = fin (x - y) := rfl

@[simp]
theorem fin_mul_fin {K : Type} [LinearOrderedField K] (x y : K) :
    (fin x * fin y : JSNum K) = fin (x * y) := rfl

theorem fin_div_fin {K : Type} [LinearOrderedField K] (x y : K) (hy : y ≠ 0) :
    (fin x / fin y : JSNum K) = fin (x / y) := by
  show div (fin x) (fin y) = _
  simp [div, hy]

@[simp]
theorem fin_le_fin {K : Type} [LinearOrderedField K] (x y : K) :
    (fin x).le (fin y) = decide (x ≤ y) := rfl

@[simp]
theorem fin_lt_fin {K : Type} [LinearOrderedField K] (x y : K) :
    (fin x).lt (fin y) = decide (x < y) := rfl

@[simp]
theorem fin_gt_fin {K : Type} [LinearOrderedField K] (x y : K) :
    (fin x).gt (fin y) = decide (y < x) := rfl

@[simp]
theorem isNaN_fin {K : Type} (x : K) : (fin x : JSNum K).isNaN = false := rfl

@[simp]
theorem toReal_fin (q : ℚ) : toReal (fin q) = fin (q : ℝ) := rfl

theorem log10_fin (x : ℝ) (hx : 0 < x) : log10 (fin x) = fin (Real.logb 10 x) := by
  simp [log10, not_lt.mpr hx.le, hx.ne']

theorem toFixed_two_of_floor (v : ℝ) (z : ℤ) (h0 : 0 ≤ v) (hbig : v < 10 ^ 21)
    (hz1 : (z : ℝ) ≤ v * 100 + 1 / 2) (hz2 : v * 100 + 1 / 2 < z + 1) :
    toFixed (fin v) 2 = fin ((z : ℝ) / 100) := by
  have hfl : ⌊v * 10 ^ 2 + 1 / 2⌋ = z := by
    rw [Int.floor_eq_iff]
    constructor
    · norm_num at hz1 ⊢; linarith
    · norm_num at hz2 ⊢; linarith
  have habs : ¬ ((10 : ℝ) ^ 21 ≤ |v|) := by
    rw [abs_of_nonneg h0]
    exact not_le.mpr hbig
  simp only [toFixed, habs, if_false, not_lt.mpr h0, hfl]
  norm_num

theorem toFixed_nonneg (bf : JSNum ℝ) (h1 : bf.isNaN = false) (h2 : bf.lt (fin 0) = false) :
    (fin 0).le (bf.toFixed 2) = true := by
  cases bf with
  | nan => simp [isNaN] at h1
  | negInf => simp [lt] at h2
  | posInf => simp [toFixed, le]
  | fin v =>
    have h0 : 0 ≤ v := by simpa using h2
    simp only [toFixed]
    split_ifs with ha hb
    · simpa using h0
    · exact absurd hb (not_lt.mpr h0)
    · simp only [fin_le_fin, decide_eq_true_eq]
      apply div_nonneg _ (by positivity)
      have : (0 : ℤ) ≤ ⌊v * 10 ^ 2 + 1 / 2⌋ := Int.floor_nonneg.mpr (by positivity)
      exact_mod_cast this

end JSNum

theorem navyMale_fin (w n h : ℝ) (hwn : 0 < w - n) (hh : 0 < h)
    (hD : 1.0324 - 0.19077 * Real.logb 10 (w - n) + 0.15456 * Real.logb 10 h ≠ 0) :
    navyMale (.fin w) (.fin n) (.fin h) = .fin (navyMaleReal w n h) := by
  simp only [navyMale, navyMaleReal, JSNum.fin_sub_fin, JSNum.log10_fin _ hwn,
    JSNum.log10_fin _ hh, JSNum.fin_mul_fin, JSNum.fin_add_fin, JSNum.fin_div_fin _ _ hD]

theorem navyFemale_fin (w p n h : ℝ) (hwn : 0 < w + p - n) (hh : 0 < h)
    (hD : 1.29579 - 0.35004 * Real.logb 10 (w + p - n) + 0.22100 * Real.logb 10 h ≠ 0) :
    navyFemale (.fin w) (.fin p) (.fin n) (.fin h) = .fin (navyFemaleReal w p n h) := by
  simp only [navyFemale, navyFemaleReal, JSNum.fin_sub_fin, JSNum.log10_fin _ hwn,
    JSNum.log10_fin _ hh, JSNum.fin_mul_fin, JSNum.fin_add_fin, JSNum.fin_div_fin _ _ hD]

theorem rangeChecked_fin_stores (s : AppState) (x : ℝ) (h : 0 ≤ x) :
    rangeChecked s (.fin x)
      = { cleared s with bodyFatPercentage := some ((JSNum.fin x).toFixed 2) } :=
  rangeChecked_stores s (.fin x) rfl (by simpa using h)

theorem rangeChecked_fin_rejects (s : AppState) (x : ℝ) (h : x < 0) :
    rangeChecked s (.fin x) = { cleared s with error := msgOutOfRange } :=
  rangeChecked_rejects s (.fin x) (Or.inr (by simpa using h))

theorem logb_ten_hundred : Real.logb 10 100 = 2 := by
  have h : (100 : ℝ) = 10 ^ (2 : ℕ) := by norm_num
  rw [h, Real.logb_pow, Real.logb_self_eq_one (by norm_num)]
  norm_num

/-! ## Gender -/

theorem isValidNumber_eq_false_iff (value : String) :
    isValidNumber value = false ↔ fieldRejected value := by
  unfold isValidNumber fieldRejected
  by_cases h1 : value = ""
  · simp [h1]
  · cases h2 : (toNumber value).isNaN <;> cases h3 : (parseFloat value).gt (.fin 0) <;>
      simp [h1]

theorem basicValid_eq_false_iff (s : AppState) :
    basicValid s = false ↔
      fieldRejected s.height ∨ fieldRejected s.neck ∨ fieldRejected s.waist := by
  rw [← isValidNumber_eq_false_iff, ← isValidNumber_eq_false_iff, ← isValidNumber_eq_false_iff]
  unfold basicValid
  cases isValidNumber s.height <;> cases isValidNumber s.neck <;>
    cases isValidNumber s.waist <;> simp

/-- Once gender and the three basic fields are accepted, the message is one of
the later ones. -/
theorem calculateBodyFat_error_after_basic (s : AppState) (hg : s.gender ≠ "")
    (hv : basicValid s = true) :
    (calculateBodyFat s).error = msgInvalidHip ∧ s.gender = "female" ∧
        isValidNumber s.hip = false ∨
    (calculateBodyFat s).error = msgNeckWaist ∧ s.gender = "male" ∨
    (calculateBodyFat s).error = msgWaistHipNeck ∧ s.gender ≠ "male" ∨
    (calculateBodyFat s).error = "" ∨
    (calculateBodyFat s).error = msgOutOfRange := by
  by_cases hm : s.gender = "male"
  · rw [calculateBodyFat_male s hv hm]
    split_ifs
    · exact Or.inr (Or.inl ⟨rfl, hm⟩)
    · rcases rangeChecked_error s (navyMale (waistOf s) (neckOf s) (heightOf s)) with h | h
      · exact Or.inr (Or.inr (Or.inr (Or.inl h)))
      · exact Or.inr (Or.inr (Or.inr (Or.inr h)))
  · by_cases hf : s.gender = "female" ∧ isValidNumber s.hip = false
    · rw [calculateBodyFat_invalid_hip s hv hf.1 hf.2]
      exact Or.inl ⟨rfl, hf.1, hf.2⟩
    · have hh : s.gender = "female" → isValidNumber s.hip = true := by
        intro h
        cases hb : isValidNumber s.hip with
        | true => rfl
        | false => exact absurd ⟨h, hb⟩ hf
      rw [calculateBodyFat_other s hv hg hm hh]
      split_ifs
      · exact Or.inr (Or.inr (Or.inl ⟨rfl, hm⟩))
      · rcases rangeChecked_error s
          (navyFemale (waistOf s) (hipOf s) (neckOf s) (heightOf s)) with h | h
        · exact Or.inr (Or.inr (Or.inr (Or.inl h)))
        · exact Or.inr (Or.inr (Or.inr (Or.inr h)))

theorem navyMale_infinite_height (w n : ℝ) (hwn : 0 < w - n) :
    navyMale (.fin w) (.fin n) .posInf = .fin (-450) := by
  have hmul : (JSNum.fin (0.15456 : ℝ) * JSNum.posInf : JSNum ℝ) = JSNum.posInf := by
    show JSNum.mul _ _ = _
    simp only [JSNum.mul, JSNum.signedInf]
    norm_num
  have hlog : JSNum.log10 JSNum.posInf = JSNum.posInf := rfl
  have hadd : ∀ x : ℝ, (JSNum.fin x + JSNum.posInf : JSNum ℝ) = JSNum.posInf := fun _ => rfl
  have hdiv : ∀ x : ℝ, (JSNum.fin x / JSNum.posInf : JSNum ℝ) = JSNum.fin 0 := fun _ => rfl
  simp only [navyMale, JSNum.fin_sub_fin, JSNum.log10_fin _ hwn, JSNum.fin_mul_fin, hlog, hmul,
    hadd, hdiv]
  norm_num

theorem waist_minus_neck_scenario3 :
    (waistOf (maleState "175" "90" "80") - neckOf (maleState "175" "90" "80")).le (.fin 0)
      = true := by
  have hn : parseFloat "90" = .fin 90 := by decide!
  have hw : parseFloat "80" = .fin 80 := by decide!
  simp only [waistOf, neckOf, maleState, hn, hw, JSNum.toReal_fin, JSNum.fin_sub_fin,
    JSNum.fin_le_fin]
  norm_num

theorem lt_logb_ten_of_pow (x : ℝ) (p q : ℕ) (hq : 0 < q)
    (h : (10 : ℝ) ^ p < x ^ q) : (p : ℝ) / q < Real.logb 10 x := by
  have hlog10 : 0 < Real.log 10 := Real.log_pos (by norm_num)
  have hq' : (0 : ℝ) < q := by exact_mod_cast hq
  have h1 : Real.log ((10 : ℝ) ^ p) < Real.log (x ^ q) :=
    Real.log_lt_log (by positivity) h
  rw [Real.log_pow, Real.log_pow] at h1
  rw [Real.logb, div_lt_div_iff₀ hq' hlog10]
  linarith

theorem logb_ten_lt_of_pow (x : ℝ) (p q : ℕ) (hq : 0 < q) (hx : 0 < x)
    (h : x ^ q < (10 : ℝ) ^ p) : Real.logb 10 x < (p : ℝ) / q := by
  have hlog10 : 0 < Real.log 10 := Real.log_pos (by norm_num)
  have hq' : (0 : ℝ) < q := by exact_mod_cast hq
  have h1 : Real.log (x ^ q) < Real.log ((10 : ℝ) ^ p) :=
    Real.log_lt_log (by positivity) h
  rw [Real.log_pow, Real.log_pow] at h1
  rw [Real.logb, div_lt_div_iff₀ hlog10 hq']
  linarith

theorem logb_42_bounds : (1.6 : ℝ) < Real.logb 10 42 ∧ Real.logb 10 42 < 1.7 := by
  have h1 := lt_logb_ten_of_pow 42 16 10 (by norm_num) (by norm_num)
  have h2 := logb_ten_lt_of_pow 42 17 10 (by norm_num) (by norm_num) (by norm_num)
  constructor
  · calc (1.6 : ℝ) = ((16 : ℕ) : ℝ) / ((10 : ℕ) : ℝ) := by norm_num
      _ < _ := h1
  · calc Real.logb 10 42 < ((17 : ℕ) : ℝ) / ((10 : ℕ) : ℝ) := h2
      _ = 1.7 := by norm_num

theorem logb_175_bounds : (2.24 : ℝ) < Real.logb 10 175 ∧ Real.logb 10 175 < 2.3 := by
  have h1 := lt_logb_ten_of_pow 175 56 25 (by norm_num) (by norm_num)
  have h2 := logb_ten_lt_of_pow 175 23 10 (by norm_num) (by norm_num) (by norm_num)
  constructor
  · calc (2.24 : ℝ) = ((56 : ℕ) : ℝ) / ((25 : ℕ) : ℝ) := by norm_num
      _ < _ := h1
  · calc Real.logb 10 175 < ((23 : ℕ) : ℝ) / ((10 : ℕ) : ℝ) := h2
      _ = 2.3 := by norm_num

theorem logb_28_upper : Real.logb 10 28 < 1.45 := by
  have h2 := logb_ten_lt_of_pow 28 29 20 (by norm_num) (by norm_num) (by norm_num)
  calc Real.logb 10 28 < ((29 : ℕ) : ℝ) / ((20 : ℕ) : ℝ) := h2
    _ = 1.45 := by norm_num

/-- Scenario 1 on the reals: the male formula at waist 80, neck 38, height 175
lies between 7 and 23. -/
theorem navyMaleReal_scenario1_bounds :
    7 < 495 / (1.0324 - 0.19077 * Real.logb 10 42 + 0.15456 * Real.logb 10 175) - 450 ∧
    495 / (1.0324 - 0.19077 * Real.logb 10 42 + 0.15456 * Real.logb 10 175) - 450 < 23 := by
  obtain ⟨a1, a2⟩ := logb_42_bounds
  obtain ⟨b1, b2⟩ := logb_175_bounds
  have hD1 : 1.04 < 1.0324 - 0.19077 * Real.logb 10 42 + 0.15456 * Real.logb 10 175 := by
    nlinarith
  have hD2 : 1.0324 - 0.19077 * Real.logb 10 42 + 0.15456 * Real.logb 10 175 < 1.083 := by
    nlinarith
  have hpos : 0 < 1.0324 - 0.19077 * Real.logb 10 42 + 0.15456 * Real.logb 10 175 := by
    linarith
  constructor
  · rw [lt_sub_iff_add_lt, lt_div_iff₀ hpos]
    nlinarith
  · rw [sub_lt_iff_lt_add, div_lt_iff₀ hpos]
    nlinarith

/-! ## Concrete scenarios -/

theorem scenario1_numbers (hip : String) (prior : AppState) :
    basicValid (scenario1 hip prior) = true ∧
    heightOf (scenario1 hip prior) = .fin 175 ∧
    neckOf (scenario1 hip prior) = .fin 38 ∧
    waistOf (scenario1 hip prior) = .fin 80 := by
  have v1 : isValidNumber "175" = true := by decide!
  have v2 : isValidNumber "38" = true := by decide!
  have v3 : isValidNumber "80" = true := by decide!
  have p1 : parseFloat "175" = .fin 175 := by decide!
  have p2 : parseFloat "38" = .fin 38 := by decide!
  have p3 : parseFloat "80" = .fin 80 := by decide!
  refine ⟨?_, ?_, ?_, ?_⟩
  · simp [basicValid, scenario1, v1, v2, v3]
  · simp [heightOf, scenario1, p1]
  · simp [neckOf, scenario1, p2]
  · simp [waistOf, scenario1, p3]

theorem scenario1_passesDomainGuard (hip : String) (prior : AppState) :
    passesDomainGuard (scenario1 hip prior) := by
  obtain ⟨hv, _, hn, hw⟩ := scenario1_numbers hip prior
  refine Or.inl ⟨rfl, hv, ?_⟩
  rw [hn, hw]
  norm_num

/-- C9.  For the male input height 175, neck 38, waist 80, whatever the hip
field and the earlier results, `calculateBodyFat` passes validation and the
guard (`waist - neck = 42`), sets no error and stores the formula value rounded
to two decimals, a number strictly between 0 and 30. -/
theorem calculateBodyFat_scenario1 (hip : String) (prior : AppState) :
    passesDomainGuard (scenario1 hip prior) ∧
    waistOf (scenario1 hip prior) - neckOf (scenario1 hip prior) = .fin 42 ∧
    (calculateBodyFat (scenario1 hip prior)).error = "" ∧
    ∃ v : ℝ,
      (calculateBodyFat (scenario1 hip prior)).bodyFatPercentage = some (.fin v) ∧
      v = ((⌊(495 / (1.0324 - 0.19077 * Real.logb 10 42 + 0.15456 * Real.logb 10 175) - 450)
              * 100 + 1 / 2⌋ : ℤ) : ℝ) / 100 ∧
      0 < v ∧ v < 30 := by
  obtain ⟨hv, hh, hn, hw⟩ := scenario1_numbers hip prior
  obtain ⟨b1, b2⟩ := navyMaleReal_scenario1_bounds
  have hD : 1.0324 - 0.19077 * Real.logb 10 ((80 : ℝ) - 38) + 0.15456 * Real.logb 10 175
      ≠ 0 := by
    have e : (80 : ℝ) - 38 = 42 := by norm_num
    rw [e]
    intro h0
    rw [h0] at b1
    norm_num at b1
  have hreal : navyMaleReal 80 38 175
      = 495 / (1.0324 - 0.19077 * Real.logb 10 42 + 0.15456 * Real.logb 10 175) - 450 := by
    have e : (80 : ℝ) - 38 = 42 := by norm_num
    rw [navyMaleReal, e]
  have hcalc : calculateBodyFat (scenario1 hip prior)
      = { cleared (scenario1 hip prior) with
          bodyFatPercentage := some (.fin (((⌊(495 / (1.0324 - 0.19077 * Real.logb 10 42
            + 0.15456 * Real.logb 10 175) - 450) * 100 + 1 / 2⌋ : ℤ) : ℝ) / 100)) } := by
    rw [calculateBodyFat_male _ hv rfl, hh, hn, hw, if_neg (by norm_num),
      navyMale_fin 80 38 175 (by norm_num) (by norm_num) hD, hreal,
      rangeChecked_fin_stores _ _ (by linarith),
      JSNum.toFixed_two_of_floor _ _ (by linarith) (by norm_num; linarith)
        (Int.floor_le _) (Int.lt_floor_add_one _)]
  refine ⟨scenario1_passesDomainGuard hip prior, ?_, ?_, _, ?_, rfl, ?_, ?_⟩
  · rw [hn, hw]
    norm_num
  · rw [hcalc]
    rfl
  · rw [hcalc]
  · have hfl : (700 : ℤ) ≤ ⌊(495 / (1.0324 - 0.19077 * Real.logb 10 42
        + 0.15456 * Real.logb 10 175) - 450) * 100 + 1 / 2⌋ := by
      rw [Int.le_floor]
      push_cast
      linarith
    have : (700 : ℝ) ≤ ((⌊(495 / (1.0324 - 0.19077 * Real.logb 10 42
        + 0.15456 * Real.logb 10 175) - 450) * 100 + 1 / 2⌋ : ℤ) : ℝ) := by
      exact_mod_cast hfl
    linarith
  · have hfl := Int.floor_le ((495 / (1.0324 - 0.19077 * Real.logb 10 42
        + 0.15456 * Real.logb 10 175) - 450) * 100 + 1 / 2)
    linarith

theorem maleState_numbers (height neck waist : String) (h n w : ℚ)
    (vh : isValidNumber height = true) (vn : isValidNumber neck = true)
    (vw : isValidNumber waist = true) (ph : parseFloat height = .fin h)
    (pn : parseFloat neck = .fin n) (pw : parseFloat waist = .fin w) :
    basicValid (maleState height neck waist) = true ∧
    heightOf (maleState height neck waist) = .fin (h : ℝ) ∧
    neckOf (maleState height neck waist) = .fin (n : ℝ) ∧
    waistOf (maleState height neck waist) = .fin (w : ℝ) := by
  refine ⟨?_, ?_, ?_, ?_⟩
  · simp [basicValid, maleState, vh, vn, vw]
  · simp [heightOf, maleState, ph]
  · simp [neckOf, maleState, pn]
  · simp [waistOf, maleState, pw]

theorem navyMale_negative (w n h : ℝ) (hwn : 0 < w - n) (hh : 0 < h)
    (hD : 1.1 < 1.0324 - 0.19077 * Real.logb 10 (w - n) + 0.15456 * Real.logb 10 h) :
    navyMale (.fin w) (.fin n) (.fin h) = .fin (navyMaleReal w n h) ∧
    navyMaleReal w n h < 0 := by
  have hpos : 0 < 1.0324 - 0.19077 * Real.logb 10 (w - n) + 0.15456 * Real.logb 10 h := by
    linarith
  refine ⟨navyMale_fin w n h hwn hh hpos.ne', ?_⟩
  rw [navyMaleReal, sub_lt_iff_lt_add, div_lt_iff₀ hpos]
  linarith

theorem tightWaist_numbers :
    basicValid (maleState "175" "38" "39") = true ∧
    heightOf (maleState "175" "38" "39") = .fin 175 ∧
    neckOf (maleState "175" "38" "39") = .fin 38 ∧
    waistOf (maleState "175" "38" "39") = .fin 39 := by
  have h := maleState_numbers "175" "38" "39" 175 38 39 (by decide!) (by decide!) (by decide!)
    (by decide!) (by decide!) (by decide!)
  simpa using h

theorem leanMale_numbers :
    basicValid (maleState "175" "40" "68") = true ∧
    heightOf (maleState "175" "40" "68") = .fin 175 ∧
    neckOf (maleState "175" "40" "68") = .fin 40 ∧
    waistOf (maleState "175" "40" "68") = .fin 68 := by
  have h := maleState_numbers "175" "40" "68" 175 40 68 (by decide!) (by decide!) (by decide!)
    (by decide!) (by decide!) (by decide!)
  simpa using h

/-- C10.  Two male inputs pass validation and the guard and still get no
result: for height 175, neck 38, waist 39 and for height 175, neck 40, waist 68
the formula value is negative, no body-fat value is stored and the message is
the out-of-range one. -/
theorem calculateBodyFat_negative_formula :
    (passesDomainGuard (maleState "175" "38" "39") ∧
      (∃ x : ℝ, navyMale (waistOf (maleState "175" "38" "39"))
          (neckOf (maleState "175" "38" "39")) (heightOf (maleState "175" "38" "39"))
          = .fin x ∧ x < 0) ∧
      (calculateBodyFat (maleState "175" "38" "39")).bodyFatPercentage = none ∧
      (calculateBodyFat (maleState "175" "38" "39")).error = msgOutOfRange) ∧
    (passesDomainGuard (maleState "175" "40" "68") ∧
      (∃ x : ℝ, navyMale (waistOf (maleState "175" "40" "68"))
          (neckOf (maleState "175" "40" "68")) (heightOf (maleState "175" "40" "68"))
          = .fin x ∧ x < 0) ∧
      (calculateBodyFat (maleState "175" "40" "68")).bodyFatPercentage = none ∧
      (calculateBodyFat (maleState "175" "40" "68")).error = msgOutOfRange) := by
  obtain ⟨b1, _⟩ := logb_175_bounds
  have c1 := logb_28_upper
  constructor
  · obtain ⟨hv, hh, hn, hw⟩ := tightWaist_numbers
    have hneg := navyMale_negative 39 38 175 (by norm_num) (by norm_num) (by
      have e : (39 : ℝ) - 38 = 1 := by norm_num
      rw [e, Real.logb_one]
      linarith)
    have hcalc : calculateBodyFat (maleState "175" "38" "39")
        = { cleared (maleState "175" "38" "39") with error := msgOutOfRange } := by
      rw [calculateBodyFat_male _ hv rfl, hh, hn, hw, if_neg (by norm_num), hneg.1,
        rangeChecked_fin_rejects _ _ hneg.2]
    refine ⟨Or.inl ⟨rfl, hv, ?_⟩, ⟨_, ?_, hneg.2⟩, ?_, ?_⟩
    · rw [hn, hw]; norm_num
    · rw [hh, hn, hw, hneg.1]
    · rw [hcalc]; rfl
    · rw [hcalc]
  · obtain ⟨hv, hh, hn, hw⟩ := leanMale_numbers
    have hneg := navyMale_negative 68 40 175 (by norm_num) (by norm_num) (by
      have e : (68 : ℝ) - 40 = 28 := by norm_num
      rw [e]
      linarith)
    have hcalc : calculateBodyFat (maleState "175" "40" "68")
        = { cleared (maleState "175" "40" "68") with error := msgOutOfRange } := by
      rw [calculateBodyFat_male _ hv rfl, hh, hn, hw, if_neg (by norm_num), hneg.1,
        rangeChecked_fin_rejects _ _ hneg.2]
    refine ⟨Or.inl ⟨rfl, hv, ?_⟩, ⟨_, ?_, hneg.2⟩, ?_, ?_⟩
    · rw [hn, hw]; norm_num
    · rw [hh, hn, hw, hneg.1]
    · rw [hcalc]; rfl
    · rw [hcalc]

/-! ## Range of the stored value -/

theorem rangeChecked_nonneg_or_rejected (s : AppState) (bf : JSNum ℝ) :
    (∃ v : JSNum ℝ, (rangeChecked s bf).bodyFatPercentage = some v ∧
        (rangeChecked s bf).error = "" ∧ (JSNum.fin 0).le v = true) ∨
    ((rangeChecked s bf).bodyFatPercentage = none ∧
        (rangeChecked s bf).error = msgOutOfRange) := by
  by_cases h : bf.isNaN = true ∨ bf.lt (.fin 0) = true
  · right
    rw [rangeChecked_rejects s bf h]
    exact ⟨rfl, rfl⟩
  · left
    have h1 : bf.isNaN = false := by
      cases hb : bf.isNaN with
      | false => rfl
      | true => exact absurd (Or.inl hb) h
    have h2 : bf.lt (.fin 0) = false := by
      cases hb : bf.lt (.fin 0) with
      | false => rfl
      | true => exact absurd (Or.inr hb) h
    rw [rangeChecked_stores s bf h1 h2]
    exact ⟨_, rfl, rfl, JSNum.toFixed_nonneg bf h1 h2⟩

theorem calculateBodyFat_of_passesDomainGuard (s : AppState) (h : passesDomainGuard s) :
    (s.gender = "male" ∧
      calculateBodyFat s = rangeChecked s (navyMale (waistOf s) (neckOf s) (heightOf s))) ∨
    (s.gender = "female" ∧
      calculateBodyFat s
        = rangeChecked s (navyFemale (waistOf s) (hipOf s) (neckOf s) (heightOf s))) := by
  rcases h with ⟨hm, hv, hgd⟩ | ⟨hf, hv, hh, hgd⟩
  · left
    refine ⟨hm, ?_⟩
    rw [calculateBodyFat_male s hv hm, if_neg (by simp [hgd])]
  · right
    refine ⟨hf, ?_⟩
    have hne : s.gender ≠ "" := by rw [hf]; decide
    have hnm : s.gender ≠ "male" := by rw [hf]; decide
    rw [calculateBodyFat_other s hv hne hnm (fun _ => hh), if_neg (by simp [hgd])]

theorem scenario2_passesDomainGuard :
    passesDomainGuard (femaleState "165" "34" "70" "95") := by
  have pn : parseFloat "34" = .fin 34 := by decide!
  have pw : parseFloat "70" = .fin 70 := by decide!
  have pp : parseFloat "95" = .fin 95 := by decide!
  refine Or.inr ⟨rfl, by decide!, by decide!, ?_⟩
  simp only [waistOf, hipOf, neckOf, femaleState, pn, pw, pp, JSNum.toReal_fin,
    JSNum.fin_add_fin, JSNum.fin_sub_fin, JSNum.fin_le_fin]
  norm_num

end BodyFat
